import Mathlib

/-!
# Verification of the `controleDeEntregas` delivery API backend

Shallow embedding of `src/delivery-backend/server.js` (an Express + mysql2
HTTP API over a single table `entregas`) and proofs about it.

Modelling conventions:
* HTTP query parameters are `Option String` (`none` = parameter absent from
  the URL, `some ""` = parameter present with an empty value); JavaScript
  truthiness of such a value is `qTruthy`.
* JSON body values are `JsVal` (string, number, boolean, null, object,
  array, or `undef` for an absent key); JavaScript truthiness is `jsTruthy`.
* `jsToUpper` / `jsTrim` stand for JavaScript's `toUpperCase()` /
  `trim()` (they agree on the ASCII inputs at stake, and are defined
  directly on the character list so that concrete runs reduce in the
  kernel).
* Calling `.toUpperCase()` on a truthy non-string value throws a
  `TypeError` in JavaScript; the embedding surfaces this as the
  `typeError` outcome (the Express handler does not convert it to a 400).
* `pool.execute` of the UPDATE is interpreted against a database state
  `List Row`.  `affectedRows` is the number of *matched* rows, which is
  what mysql2 reports by default (its default connection flags include
  `FOUND_ROWS`).
-/

/-- A JSON value as it can appear in a parsed request body field
(`req.body.status`, `req.body.delivererName`).  `undef` is the value of an
absent key.  Objects and arrays carry no payload because the handlers never
inspect their contents. -/
inductive JsVal where
  | str (s : String)
  | num (n : Int)
  | bool (b : Bool)
  | null
  | undef
  | obj
  | arr
  deriving DecidableEq, Repr

/-- JavaScript's `toUpperCase()`: uppercase every character
(`Char.toUpper` maps the ASCII letters, which covers the values the
handlers compare against). -/
def jsToUpper (s : String) : String := ⟨s.data.map Char.toUpper⟩

/-- JavaScript's `trim()`: strip leading and trailing whitespace. -/
def jsTrim (s : String) : String :=
  ⟨((s.data.dropWhile Char.isWhitespace).reverse.dropWhile Char.isWhitespace).reverse⟩

/-- JavaScript truthiness of a `JsVal`: `""`, `0`, `false`, `null` and
`undefined` are falsy; every other value (including objects and arrays) is
truthy. -/
def JsVal.truthy : JsVal → Bool
  | .str s => !(s = "")
  | .num n => !(n = 0)
  | .bool b => b
  | .null => false
  | .undef => false
  | .obj => true
  | .arr => true

/-- `typeof v === 'string'`. -/
def JsVal.isString : JsVal → Bool
  | .str _ => true
  | _ => false

/-- JavaScript truthiness of an optional query-string parameter:
absent (`undefined`) and the empty string are falsy. -/
def qTruthy : Option String → Bool
  | none => false
  | some s => !(s = "")

/-- The value of a truthy optional parameter (only read under `qTruthy`). -/
def qVal (o : Option String) : String := o.getD ""

/-- The four optional query parameters of `GET /api/deliveries`
(`req.query` destructured at server.js:52). -/
structure ReadQuery where
  startDate : Option String
  endDate : Option String
  pdv : Option String
  status : Option String
  deriving DecidableEq, Repr

/-- Outcome of the read handler before the SELECT round-trip: either the
SQL text and bound-parameter list handed to `pool.execute`, or an early
400 response with no query executed. -/
inductive ReadOutcome where
  | execSelect (sql : String) (params : List String)
  | badRequest (msg : String)
  deriving DecidableEq, Repr

/-- The 400 message of the read handler for an invalid status filter
(server.js:82). -/
def readStatusMsg : String :=
  "Status inválido. Use \"S\" para entregue ou \"N\" para não entregue."

/-- The `GET /api/deliveries` handler (server.js:51-84): starting from the
always-true base clause it appends one predicate clause and its bound
parameters for each truthy filter, in source order, validating the status
filter against S/N (case-insensitively) and short-circuiting with a 400
otherwise. -/
def getDeliveries (q : ReadQuery) : ReadOutcome := Id.run do
  let mut query := "SELECT * FROM entregas WHERE 1=1"
  let mut params : List String := []
  if qTruthy q.startDate then
    query := query ++ " AND EMISSAO >= ?"
    params := params ++ [qVal q.startDate]
  if qTruthy q.endDate then
    query := query ++ " AND EMISSAO <= ?"
    params := params ++ [qVal q.endDate]
  if qTruthy q.pdv then
    query := query ++ " AND (CAIXA = ? OR COO = ?)"
    params := params ++ [qVal q.pdv, qVal q.pdv]
  if qTruthy q.status then
    if jsToUpper (qVal q.status) = "S" ∨ jsToUpper (qVal q.status) = "N" then
      -- server.js:78: status.toUpperCase() === 'S' || status.toUpperCase() === 'N'
      query := query ++ " AND ENTREGUE = ?"
      params := params ++ [jsToUpper (qVal q.status)]
    else
      return .badRequest readStatusMsg
  return .execSelect query params

/-- The 400 message for a missing or invalid status in the update payload
(server.js:110). -/
def updStatusMsg : String := "Status é obrigatório e deve ser \"S\" ou \"N\"."

/-- The 400 message for a missing or invalid deliverer name
(server.js:113). -/
def updNameMsg : String := "Nome do entregador é obrigatório."

/-- The SQL text of the one parameterized UPDATE of the update handler
(server.js:118). -/
def updateSql : String := "UPDATE entregas SET ENTREGUE = ?, NOME = ? WHERE ID_ENTREGA = ?"

/-- Outcome of the update handler before the UPDATE round-trip: a 400, an
uncaught `TypeError` (thrown by `status.toUpperCase()` on a truthy
non-string status, server.js:109), or the SQL text and bound parameters
handed to `pool.execute`. -/
inductive UpdStep where
  | badRequest (msg : String)
  | typeError
  | execUpdate (sql : String) (params : List String)
  deriving DecidableEq, Repr

/-- Validation and query construction of `PUT /api/deliveries/:id/status`
(server.js:104-120).  Mirrors the source's short-circuit order:
`!status` first; then `status.toUpperCase()` (throwing on a truthy
non-string); then the S/N comparison; then
`!delivererName || typeof delivererName !== 'string' ||
delivererName.trim() === ''`; on success the bound parameters are
`[status.toUpperCase(), delivererName.trim(), id]`. -/
def updateStep (id : String) (status delivererName : JsVal) : UpdStep :=
  if !status.truthy then .badRequest updStatusMsg
  else
    match status with
    | .str s =>
      if jsToUpper s ≠ "S" ∧ jsToUpper s ≠ "N" then .badRequest updStatusMsg
      else if !delivererName.truthy then .badRequest updNameMsg
      else
        match delivererName with
        | .str n =>
          if jsTrim n = "" then .badRequest updNameMsg
          else .execUpdate updateSql [jsToUpper s, jsTrim n, id]
        | _ => .badRequest updNameMsg
    | _ => .typeError

/-- One row of the `entregas` table, restricted to the columns the two
handlers touch (spec §6 lists the same columns).  All values are kept as
strings, the form in which they cross the driver boundary. -/
structure Row where
  idEntrega : String
  emissao : String
  caixa : String
  coo : String
  entregue : String
  nome : String
  deriving DecidableEq, Repr

/-- Effect of one bound UPDATE placeholder set on one row: rows whose
`ID_ENTREGA` matches get the new flag and name, others are untouched. -/
def updRow (flag nome idv : String) (r : Row) : Row :=
  if r.idEntrega = idv then { r with entregue := flag, nome := nome } else r

/-- Execution of `updateSql` with parameters `[flag, nome, idv]` against a
database state: the new state together with `affectedRows`, the number of
matched rows (mysql2 default, see file header). -/
def dbExecUpdate (db : List Row) (flag nome idv : String) : List Row × Nat :=
  (db.map (updRow flag nome idv), (db.filter (fun r => r.idEntrega = idv)).length)

/-- HTTP response of the update endpoint.  `typeError` records an uncaught
exception escaping the handler (no 4xx/2xx response is produced). -/
inductive HttpResp where
  | ok (msg : String)
  | badRequest (msg : String)
  | notFound (msg : String)
  | typeError
  deriving DecidableEq, Repr

/-- The 404 message of the update handler (server.js:123). -/
def notFoundMsg (id : String) : String :=
  "Entrega com ID " ++ id ++ " não encontrada."

/-- The 200 message of the update handler (server.js:126). -/
def successMsg (id flag nome : String) : String :=
  "Status da entrega " ++ id ++ " atualizado para \"" ++ flag ++
    "\" e entregador definido como \"" ++ nome ++ "\"."

/-- The full `PUT /api/deliveries/:id/status` endpoint against a database
state (server.js:104-131): validation, the single UPDATE, then 404 when
`affectedRows === 0` and 200 otherwise.  The three bound parameters are
read back positionally, as the server binds the three placeholders of
`updateSql`. -/
def putDeliveryStatus (db : List Row) (id : String) (status delivererName : JsVal) :
    List Row × HttpResp :=
  match updateStep id status delivererName with
  | .badRequest m => (db, .badRequest m)
  | .typeError => (db, .typeError)
  | .execUpdate _ ps =>
    let flag := ps.getD 0 ""
    let nome := ps.getD 1 ""
    let idv := ps.getD 2 ""
    let r := dbExecUpdate db flag nome idv
    if r.2 = 0 then (r.1, .notFound (notFoundMsg id))
    else (r.1, .ok (successMsg id flag nome))

/-- The connection pool, reduced to what the health check observes:
whether the database is reachable and how many connections are checked
out.  `queueLimit: 0` (unbounded queue) means acquisition fails only on
unreachability, never on exhaustion. -/
structure Pool where
  dbUp : Bool
  inUse : Nat
  deriving DecidableEq, Repr

/-- `pool.getConnection()` (server.js:31): a checked-out connection when
the database is reachable, a rejection otherwise. -/
def getConnection (p : Pool) : Option Pool :=
  if p.dbUp then some { p with inUse := p.inUse + 1 } else none

/-- `connection.release()` (server.js:32). -/
def releaseConn (p : Pool) : Pool := { p with inUse := p.inUse - 1 }

/-- Outcome of the health-check middleware: either control passed to the
downstream handler (with the pool state it sees), or a short-circuited 500
with the handler never run. -/
inductive MwOutcome (α : Type) where
  | handled (pool : Pool) (resp : α)
  | serverError (msg : String)
  deriving DecidableEq, Repr

/-- The 500 message of the health-check middleware (server.js:36). -/
def dbDownMsg : String :=
  "Erro interno do servidor: falha na conexão com o banco de dados."

/-- The per-request health-check middleware (server.js:28-38): acquire a
connection; on success release it immediately and call `next()` (the
downstream route handler, receiving the restored pool); on failure answer
500 without invoking the handler. -/
def healthCheckMw {α : Type} (p : Pool) (handler : Pool → α) : MwOutcome α :=
  match getConnection p with
  | some p1 =>
    let p2 := releaseConn p1
    .handled p2 (handler p2)
  | none => .serverError dbDownMsg

/-! ## Derived shapes and helper lemmas -/

/-- The SQL text the read handler assembles for a given set of filters:
base clause plus one fixed fragment per truthy parameter, in source
order. -/
def readSqlOf (q : ReadQuery) : String :=
  "SELECT * FROM entregas WHERE 1=1"
    ++ (if qTruthy q.startDate then " AND EMISSAO >= ?" else "")
    ++ (if qTruthy q.endDate then " AND EMISSAO <= ?" else "")
    ++ (if qTruthy q.pdv then " AND (CAIXA = ? OR COO = ?)" else "")
    ++ (if qTruthy q.status then " AND ENTREGUE = ?" else "")

/-- The bound-parameter list matching `readSqlOf`: one value per date
clause, the pdv value twice for its OR clause, the uppercased status
last. -/
def readParamsOf (q : ReadQuery) : List String :=
  (if qTruthy q.startDate then [qVal q.startDate] else [])
    ++ (if qTruthy q.endDate then [qVal q.endDate] else [])
    ++ (if qTruthy q.pdv then [qVal q.pdv, qVal q.pdv] else [])
    ++ (if qTruthy q.status then [jsToUpper (qVal q.status)] else [])

/-- Closed-form characterization of the read handler: a 400 exactly when
the status filter is truthy with an uppercase other than S/N, and the
assembled SELECT otherwise. -/
theorem getDeliveries_eq (q : ReadQuery) :
    getDeliveries q =
      if qTruthy q.status ∧ jsToUpper (qVal q.status) ≠ "S" ∧ jsToUpper (qVal q.status) ≠ "N"
      then .badRequest readStatusMsg
      else .execSelect (readSqlOf q) (readParamsOf q) := by
  unfold getDeliveries readSqlOf readParamsOf
  cases hs : qTruthy q.startDate <;> cases he : qTruthy q.endDate <;>
    cases hp : qTruthy q.pdv <;> cases hst : qTruthy q.status <;>
      simp [hs, he, hp, hst, Id.run] <;> split_ifs <;> simp_all

/-- A string whose JavaScript uppercase is `S` or `N` is nonempty
(so it is truthy). -/
theorem ne_empty_of_SN {s : String} (hs : jsToUpper s = "S" ∨ jsToUpper s = "N") :
    s ≠ "" := by
  rintro rfl
  rcases hs with h | h <;> exact absurd h (by decide)

/-- A string with a nonempty JavaScript trim is nonempty. -/
theorem ne_empty_of_trim {n : String} (hn : jsTrim n ≠ "") : n ≠ "" := by
  rintro rfl
  exact hn rfl

/-- On a payload that passes both checks of server.js:109-114, the update
handler reaches `pool.execute` with the UPDATE text and the parameters
`[status.toUpperCase(), delivererName.trim(), id]`. -/
theorem updateStep_valid (id s n : String)
    (hs : jsToUpper s = "S" ∨ jsToUpper s = "N") (hn : jsTrim n ≠ "") :
    updateStep id (.str s) (.str n) = .execUpdate updateSql [jsToUpper s, jsTrim n, id] := by
  have hs' : s ≠ "" := ne_empty_of_SN hs
  have hn' : n ≠ "" := ne_empty_of_trim hn
  unfold updateStep
  simp [JsVal.truthy, hs', hn', hn]
  tauto

/-- The UPDATE never changes the key column. -/
theorem updRow_idEntrega (flag nome idv : String) (r : Row) :
    (updRow flag nome idv r).idEntrega = r.idEntrega := by
  unfold updRow; split <;> rfl

/-- Re-running the same UPDATE on an already-updated row is a no-op. -/
theorem updRow_idem (flag nome idv : String) (r : Row) :
    updRow flag nome idv (updRow flag nome idv r) = updRow flag nome idv r := by
  unfold updRow
  split <;> simp_all

/-- The updated row carries the new flag or (when unmatched) its old one. -/
theorem updRow_entregue (flag nome idv : String) (r : Row) :
    (updRow flag nome idv r).entregue = flag ∨ (updRow flag nome idv r).entregue = r.entregue := by
  unfold updRow; split <;> simp

/-- Running the UPDATE does not change how many rows match the id. -/
theorem filter_length_map_updRow (db : List Row) (flag nome idv t : String) :
    ((db.map (updRow flag nome idv)).filter (fun r => r.idEntrega = t)).length
      = (db.filter (fun r => r.idEntrega = t)).length := by
  induction db with
  | nil => rfl
  | cons r rest ih =>
    simp only [List.map_cons, List.filter_cons, updRow_idEntrega]
    split <;> simp [ih]

/-- An UPDATE matching no row leaves the table unchanged. -/
theorem map_updRow_of_unmatched (db : List Row) (flag nome idv : String)
    (h : (db.filter (fun r => r.idEntrega = idv)).length = 0) :
    db.map (updRow flag nome idv) = db := by
  induction db with
  | nil => rfl
  | cons r rest ih =>
    simp only [List.filter_cons] at h
    by_cases hr : r.idEntrega = idv
    · simp [hr] at h
    · simp only [List.map_cons]
      rw [show updRow flag nome idv r = r from by unfold updRow; rw [if_neg hr]]
      rw [ih (by simpa [hr] using h)]

/-- Applying the same UPDATE twice yields the state of applying it once. -/
theorem map_updRow_idem (db : List Row) (flag nome idv : String) :
    (db.map (updRow flag nome idv)).map (updRow flag nome idv)
      = db.map (updRow flag nome idv) := by
  induction db with
  | nil => rfl
  | cons r rest ih => simp [updRow_idem, ih]

/-- Closed-form characterization of the update endpoint on a payload that
passes validation: the table is mapped through `updRow`, and the response
is 404 when no row matched and the echoing 200 otherwise. -/
theorem putDeliveryStatus_valid_eq (db : List Row) (id s n : String)
    (hs : jsToUpper s = "S" ∨ jsToUpper s = "N") (hn : jsTrim n ≠ "") :
    putDeliveryStatus db id (.str s) (.str n) =
      if (db.filter (fun r => r.idEntrega = id)).length = 0
      then (db.map (updRow (jsToUpper s) (jsTrim n) id), .notFound (notFoundMsg id))
      else (db.map (updRow (jsToUpper s) (jsTrim n) id),
            .ok (successMsg id (jsToUpper s) (jsTrim n))) := by
  unfold putDeliveryStatus
  rw [updateStep_valid id s n hs hn]
  simp only [dbExecUpdate, List.getD, List.get?, Option.getD]

/-- The payload status would pass the S/N comparison of server.js:109
(only strings can). -/
def statusSN : JsVal → Bool
  | .str s => jsToUpper s = "S" || jsToUpper s = "N"
  | _ => false

/-- The payload status passes the whole status check of server.js:109:
truthy and case-insensitively S or N. -/
def statusAccepted (v : JsVal) : Bool := v.truthy && statusSN v

/-- The deliverer name passes the check of server.js:112: truthy, a
string, and nonempty after trimming. -/
def nameAccepted : JsVal → Bool
  | .str n => !(jsTrim n = "")
  | _ => false

/-- A status that fails the claim's S/N rule while being falsy or a string
is answered by the status 400, whatever the name is. -/
theorem updateStep_status_reject (id : String) (st nm : JsVal)
    (h1 : statusAccepted st = false) (h2 : st.truthy = false ∨ st.isString = true) :
    updateStep id st nm = .badRequest updStatusMsg := by
  cases st <;>
    simp_all [updateStep, statusAccepted, statusSN, JsVal.truthy, JsVal.isString]

/-- A truthy non-string status makes `status.toUpperCase()` throw. -/
theorem updateStep_typeError (id : String) (st nm : JsVal)
    (h1 : st.truthy = true) (h2 : st.isString = false) :
    updateStep id st nm = .typeError := by
  cases st <;> simp_all [updateStep, JsVal.truthy, JsVal.isString]

/-- With an accepted status, a rejected deliverer name is answered by the
name 400. -/
theorem updateStep_name_reject (id : String) (st nm : JsVal)
    (h1 : statusAccepted st = true) (h2 : nameAccepted nm = false) :
    updateStep id st nm = .badRequest updNameMsg := by
  cases st <;> cases nm <;>
    simp_all [updateStep, statusAccepted, statusSN, nameAccepted, JsVal.truthy,
      JsVal.isString] <;> tauto

/-- The name 400 is only reachable once the status check has passed. -/
theorem updateStep_nameMsg_inv (id : String) (st nm : JsVal)
    (h : updateStep id st nm = .badRequest updNameMsg) :
    statusAccepted st = true ∧ nameAccepted nm = false := by
  cases st <;> cases nm <;>
    simp only [updateStep] at h <;>
    split_ifs at h <;>
    simp_all [statusAccepted, statusSN, nameAccepted, JsVal.truthy,
      JsVal.isString, updStatusMsg, updNameMsg] <;> tauto

/-- Normalization of a query parameter bound to the empty string: the
handler cannot tell it from an absent one. -/
def emptyToNone (o : Option String) : Option String :=
  if o = some "" then none else o

/-- Truthiness is unchanged by dropping an empty-string parameter. -/
theorem qTruthy_emptyToNone (o : Option String) :
    qTruthy (emptyToNone o) = qTruthy o := by
  rcases o with _ | s
  · rfl
  · by_cases h : s = "" <;> simp [emptyToNone, qTruthy, h]

/-- The read value is unchanged by dropping an empty-string parameter. -/
theorem qVal_emptyToNone (o : Option String) :
    qVal (emptyToNone o) = qVal o := by
  rcases o with _ | s
  · rfl
  · by_cases h : s = "" <;> simp [emptyToNone, qVal, h]

/-! ## Claim theorems -/

/-- **C1**: for every combination of the four optional query parameters
(including none present), as long as the status filter — when present —
passes its S/N validation, the read handler builds a SELECT over
`entregas` whose predicate is the always-true base clause conjoined with
exactly the clauses of the present parameters (issuance date ≥ startDate,
issuance date ≤ endDate, CAIXA = pdv OR COO = pdv, ENTREGUE = uppercased
status), and binds the parameter values in that same order with the pdv
value bound twice. -/
theorem read_handler_builds_exact_conjunction (q : ReadQuery)
    (h : qTruthy q.status = true →
      jsToUpper (qVal q.status) = "S" ∨ jsToUpper (qVal q.status) = "N") :
    getDeliveries q = .execSelect
      ("SELECT * FROM entregas WHERE 1=1"
        ++ (if qTruthy q.startDate then " AND EMISSAO >= ?" else "")
        ++ (if qTruthy q.endDate then " AND EMISSAO <= ?" else "")
        ++ (if qTruthy q.pdv then " AND (CAIXA = ? OR COO = ?)" else "")
        ++ (if qTruthy q.status then " AND ENTREGUE = ?" else ""))
      ((if qTruthy q.startDate then [qVal q.startDate] else [])
        ++ (if qTruthy q.endDate then [qVal q.endDate] else [])
        ++ (if qTruthy q.pdv then [qVal q.pdv, qVal q.pdv] else [])
        ++ (if qTruthy q.status then [jsToUpper (qVal q.status)] else [])) := by
  rw [getDeliveries_eq, if_neg]
  · rfl
  · rintro ⟨h1, h2, h3⟩
    rcases h h1 with h4 | h4
    · exact h2 h4
    · exact h3 h4

/-- Witness for C1: all four filters present and valid. -/
theorem read_handler_builds_exact_conjunction_witness :
    getDeliveries ⟨some "2024-01-01", some "2024-12-31", some "7", some "s"⟩ =
      .execSelect
        "SELECT * FROM entregas WHERE 1=1 AND EMISSAO >= ? AND EMISSAO <= ? AND (CAIXA = ? OR COO = ?) AND ENTREGUE = ?"
        ["2024-01-01", "2024-12-31", "7", "7", "S"] := by
  have h := read_handler_builds_exact_conjunction
    ⟨some "2024-01-01", some "2024-12-31", some "7", some "s"⟩
    (fun _ => Or.inl (by decide))
  exact h.trans (by decide)

/-- **C10**: a query parameter bound to the empty string is treated by the
read handler exactly like an absent one — replacing every empty-string
parameter by an absent one does not change the outcome — and in
particular a request whose status is the empty string bypasses the S/N
validation and reaches the SELECT (no 400). -/
theorem read_empty_param_treated_as_absent (q : ReadQuery) :
    getDeliveries ⟨emptyToNone q.startDate, emptyToNone q.endDate,
        emptyToNone q.pdv, emptyToNone q.status⟩ = getDeliveries q
    ∧ ∃ sql ps,
        getDeliveries ⟨q.startDate, q.endDate, q.pdv, some ""⟩ = .execSelect sql ps := by
  constructor
  · rw [getDeliveries_eq, getDeliveries_eq]
    simp [readSqlOf, readParamsOf, qTruthy_emptyToNone, qVal_emptyToNone]
  · have h := getDeliveries_eq ⟨q.startDate, q.endDate, q.pdv, some ""⟩
    rw [if_neg] at h
    · exact ⟨_, _, h⟩
    · rintro ⟨h1, -, -⟩
      simp [qTruthy] at h1

/-- **C4 counterexample**: a read request whose status parameter is
present with the empty-string value — whose uppercase is neither `S` nor
`N` — is *not* answered 400: the handler executes the unfiltered
SELECT. -/
theorem read_empty_status_executes_query :
    getDeliveries ⟨none, none, none, some ""⟩ =
      .execSelect "SELECT * FROM entregas WHERE 1=1" [] := by
  decide

/-- **C4 (amended)**: for every read request whose status query parameter
is present *and nonempty* and whose uppercased value is neither `S` nor
`N`, the handler responds 400 with the explanatory message and executes
no query. -/
theorem read_invalid_status_yields_400 (q : ReadQuery)
    (h1 : qTruthy q.status = true)
    (h2 : jsToUpper (qVal q.status) ≠ "S")
    (h3 : jsToUpper (qVal q.status) ≠ "N") :
    getDeliveries q = .badRequest readStatusMsg := by
  rw [getDeliveries_eq, if_pos ⟨h1, h2, h3⟩]

/-- Witness for C4 (amended): status `X` with a date filter alongside. -/
theorem read_invalid_status_yields_400_witness :
    getDeliveries ⟨some "2024-01-01", none, none, some "X"⟩ =
      .badRequest readStatusMsg :=
  read_invalid_status_yields_400 ⟨some "2024-01-01", none, none, some "X"⟩
    (by decide) (by decide) (by decide)

/-- **C3 counterexample**: a malformed update payload whose status is the
JSON number `1` (truthy, not a string, and certainly not `S`/`N`) with a
perfectly valid deliverer name is *not* answered by a 400:
`status.toUpperCase()` throws an uncaught `TypeError`. -/
theorem update_nonstring_status_no_400 :
    updateStep "1" (JsVal.num 1) (JsVal.str "Ana") = .typeError := by
  decide

/-- **C3 (amended)**: for every malformed or missing client input to
either endpoint, the response is the specific 400 of the offending field
and no database query is executed — provided the offending status value
is falsy or a string; an invalid `delivererName` of *any* JSON type gets
its 400, but a truthy non-string status instead escapes as an uncaught
`TypeError` (still no 400, still no query). -/
theorem invalid_input_specific_400 (q : ReadQuery) (id : String) (st nm : JsVal)
    (db : List Row) :
    (qTruthy q.status = true → statusSN (.str (qVal q.status)) = false →
        getDeliveries q = .badRequest readStatusMsg)
    ∧ (statusAccepted st = false → (st.truthy = false ∨ st.isString = true) →
        updateStep id st nm = .badRequest updStatusMsg
        ∧ putDeliveryStatus db id st nm = (db, .badRequest updStatusMsg))
    ∧ (statusAccepted st = true → nameAccepted nm = false →
        updateStep id st nm = .badRequest updNameMsg
        ∧ putDeliveryStatus db id st nm = (db, .badRequest updNameMsg)) := by
  refine ⟨fun h1 h2 => ?_, fun h1 h2 => ?_, fun h1 h2 => ?_⟩
  · rw [getDeliveries_eq, if_pos]
    refine ⟨h1, ?_, ?_⟩ <;> intro hx <;> simp [statusSN, hx] at h2
  · have h := updateStep_status_reject id st nm h1 h2
    exact ⟨h, by unfold putDeliveryStatus; rw [h]⟩
  · have h := updateStep_name_reject id st nm h1 h2
    exact ⟨h, by unfold putDeliveryStatus; rw [h]⟩

/-- Witness for C3 (amended): a missing status gets the status 400, a
whitespace-only name gets the name 400, and a lowercase `x` status filter
gets the read 400. -/
theorem invalid_input_specific_400_witness :
    updateStep "5" JsVal.undef (JsVal.str "Ana") = .badRequest updStatusMsg
    ∧ updateStep "5" (JsVal.str "S") (JsVal.str "   ") = .badRequest updNameMsg
    ∧ getDeliveries ⟨none, none, none, some "x"⟩ = .badRequest readStatusMsg := by
  refine ⟨?_, ?_, ?_⟩
  · exact ((invalid_input_specific_400 ⟨none, none, none, none⟩ "5" JsVal.undef
      (JsVal.str "Ana") []).2.1 (by decide) (Or.inl (by decide))).1
  · exact ((invalid_input_specific_400 ⟨none, none, none, none⟩ "5" (JsVal.str "S")
      (JsVal.str "   ") []).2.2 (by decide) (by decide)).1
  · exact (invalid_input_specific_400 ⟨none, none, none, some "x"⟩ "5" JsVal.undef
      JsVal.undef []).1 (by decide) (by decide)

/-- **C5 counterexample**: a request whose status is invalid (the JSON
boolean `true`, not `S`/`N`) *and* whose deliverer name is invalid
(`null`) does not report the status error: the handler throws an
uncaught `TypeError` instead of any 400. -/
theorem update_both_invalid_not_status_400 :
    updateStep "7" (JsVal.bool true) JsVal.null = .typeError := by
  decide

/-- **C5 (amended)**: for a status that is falsy or a string, the update
handler validates fail-fast in fixed order — the status check first with
its own 400 message (winning even when the deliverer name is also
invalid), then the name check with its own message, reachable only once
the status check has passed; a truthy non-string status instead throws a
`TypeError` before any name validation. -/
theorem update_validation_failfast_order (id : String) (st nm : JsVal) :
    ((statusAccepted st = false ∧ (st.truthy = false ∨ st.isString = true)) →
        updateStep id st nm = .badRequest updStatusMsg)
    ∧ (updateStep id st nm = .badRequest updNameMsg →
        statusAccepted st = true ∧ nameAccepted nm = false)
    ∧ ((st.truthy = true ∧ st.isString = false) →
        updateStep id st nm = .typeError) := by
  refine ⟨fun h => updateStep_status_reject id st nm h.1 h.2,
    fun h => updateStep_nameMsg_inv id st nm h,
    fun h => updateStep_typeError id st nm h.1 h.2⟩

/-- Witness for C5 (amended): a falsy status together with an invalid
name reports the status error. -/
theorem update_validation_failfast_order_witness :
    updateStep "7" JsVal.null JsVal.null = .badRequest updStatusMsg :=
  (update_validation_failfast_order "7" JsVal.null JsVal.null).1
    ⟨by decide, Or.inl (by decide)⟩

/-- **C6**: every valid update request executes exactly one parameterized
UPDATE — the fixed `updateSql` text — binding the uppercased status, the
trimmed deliverer name, and the path id, in that order. -/
theorem update_single_parameterized_update (id s n : String)
    (hs : jsToUpper s = "S" ∨ jsToUpper s = "N") (hn : jsTrim n ≠ "") :
    updateStep id (.str s) (.str n) =
      .execUpdate updateSql [jsToUpper s, jsTrim n, id] :=
  updateStep_valid id s n hs hn

/-- Witness for C6: the spec's example — status `s` with name
`  Maria  ` binds flag `S` and name `Maria`. -/
theorem update_single_parameterized_update_witness :
    updateStep "3" (JsVal.str "s") (JsVal.str "  Maria  ") =
      .execUpdate updateSql ["S", "Maria", "3"] := by
  have h := update_single_parameterized_update "3" "s" "  Maria  "
    (Or.inl (by decide)) (by decide)
  exact h.trans (by decide)

/-- **C7**: for every valid update request, an UPDATE matching zero rows
yields a 404 naming the requested id with the database unchanged, and an
UPDATE matching at least one row yields the 200 echoing the applied
(uppercased) status and (trimmed) name. -/
theorem update_404_when_missing_200_when_found (db : List Row) (id s n : String)
    (hs : jsToUpper s = "S" ∨ jsToUpper s = "N") (hn : jsTrim n ≠ "") :
    ((db.filter (fun r => r.idEntrega = id)).length = 0 →
        putDeliveryStatus db id (.str s) (.str n) = (db, .notFound (notFoundMsg id)))
    ∧ ((db.filter (fun r => r.idEntrega = id)).length ≠ 0 →
        (putDeliveryStatus db id (.str s) (.str n)).2 =
          .ok (successMsg id (jsToUpper s) (jsTrim n))) := by
  have h := putDeliveryStatus_valid_eq db id s n hs hn
  constructor
  · intro h0
    rw [h, if_pos h0, map_updRow_of_unmatched db _ _ _ h0]
  · intro h0
    rw [h, if_neg h0]

/-- Witness for C7: id 999999 against an empty table is a 404 leaving the
table unchanged; a matching id gets the echoing 200. -/
theorem update_404_when_missing_200_when_found_witness :
    putDeliveryStatus [] "999999" (.str "S") (.str "Ana") =
      ([], .notFound (notFoundMsg "999999"))
    ∧ (putDeliveryStatus [⟨"1", "2024-01-01", "1", "100", "N", "old"⟩] "1"
        (.str "S") (.str "Ana")).2 = .ok (successMsg "1" "S" "Ana") := by
  constructor
  · exact (update_404_when_missing_200_when_found [] "999999" "S" "Ana"
      (Or.inl (by decide)) (by decide)).1 (by decide)
  · have h := (update_404_when_missing_200_when_found
      [⟨"1", "2024-01-01", "1", "100", "N", "old"⟩] "1" "S" "Ana"
      (Or.inl (by decide)) (by decide)).2 (by decide)
    exact h.trans (by decide)

/-- **C2**: updating twice with the identical valid payload against a
table holding a row with that id succeeds with a 200 both times — the
second, no-op update does not 404 because the row still matches — and the
second call leaves the table exactly as the first call left it. -/
theorem update_idempotent (db : List Row) (id s n : String)
    (hs : jsToUpper s = "S" ∨ jsToUpper s = "N") (hn : jsTrim n ≠ "")
    (hex : (db.filter (fun r => r.idEntrega = id)).length ≠ 0) :
    putDeliveryStatus db id (.str s) (.str n) =
      (db.map (updRow (jsToUpper s) (jsTrim n) id),
        .ok (successMsg id (jsToUpper s) (jsTrim n)))
    ∧ putDeliveryStatus (putDeliveryStatus db id (.str s) (.str n)).1 id (.str s) (.str n) =
      ((putDeliveryStatus db id (.str s) (.str n)).1,
        .ok (successMsg id (jsToUpper s) (jsTrim n))) := by
  have h1 := putDeliveryStatus_valid_eq db id s n hs hn
  rw [if_neg hex] at h1
  have hfst : (putDeliveryStatus db id (.str s) (.str n)).1
      = db.map (updRow (jsToUpper s) (jsTrim n) id) := by rw [h1]
  have hex2 : ((db.map (updRow (jsToUpper s) (jsTrim n) id)).filter
      (fun r => r.idEntrega = id)).length ≠ 0 := by
    rw [filter_length_map_updRow]; exact hex
  have h2 := putDeliveryStatus_valid_eq
    (db.map (updRow (jsToUpper s) (jsTrim n) id)) id s n hs hn
  rw [if_neg hex2, map_updRow_idem] at h2
  refine ⟨h1, ?_⟩
  rw [hfst]
  exact h2

/-- Witness for C2: the same update applied twice to a one-row table. -/
theorem update_idempotent_witness :
    putDeliveryStatus [⟨"3", "2024-01-01", "1", "100", "N", "x"⟩] "3"
        (.str "s") (.str " Maria ") =
      ([⟨"3", "2024-01-01", "1", "100", "S", "Maria"⟩], .ok (successMsg "3" "S" "Maria"))
    ∧ putDeliveryStatus [⟨"3", "2024-01-01", "1", "100", "S", "Maria"⟩] "3"
        (.str "s") (.str " Maria ") =
      ([⟨"3", "2024-01-01", "1", "100", "S", "Maria"⟩], .ok (successMsg "3" "S" "Maria")) := by
  have h := update_idempotent [⟨"3", "2024-01-01", "1", "100", "N", "x"⟩] "3" "s" " Maria "
    (Or.inl (by decide)) (by decide) (by decide)
  exact ⟨h.1.trans (by decide), h.2.trans (by decide)⟩

/-- The delivered flag of a row is one of the two enumerated values. -/
def flagSN (r : Row) : Bool := r.entregue = "S" || r.entregue = "N"

/-- Whenever the update handler reaches `pool.execute`, the first bound
parameter — the value written to ENTREGUE — is `S` or `N`. -/
theorem updateStep_flag_SN (id : String) (st nm : JsVal) (sql : String) (ps : List String)
    (h : updateStep id st nm = .execUpdate sql ps) :
    ps.getD 0 "" = "S" ∨ ps.getD 0 "" = "N" := by
  cases st <;> cases nm <;> simp only [updateStep] at h <;> split_ifs at h <;>
    cases h <;> simp_all [JsVal.truthy, List.getD] <;> tauto

/-- `updRow` preserves `flagSN` when the written flag is S or N. -/
theorem flagSN_updRow (flag nome idv : String) (r : Row)
    (hflag : flag = "S" ∨ flag = "N") (hr : flagSN r = true) :
    flagSN (updRow flag nome idv r) = true := by
  rcases updRow_entregue flag nome idv r with h | h <;> simp_all [flagSN]

/-- The whole-table UPDATE preserves the flag invariant when the written
flag is S or N. -/
theorem all_flagSN_map_updRow (db : List Row) (flag nome idv : String)
    (hflag : flag = "S" ∨ flag = "N") (h : db.all flagSN = true) :
    (db.map (updRow flag nome idv)).all flagSN = true := by
  induction db with
  | nil => rfl
  | cons r rest ih =>
    simp only [List.map_cons, List.all_cons, Bool.and_eq_true] at h ⊢
    exact ⟨flagSN_updRow flag nome idv r hflag h.1, ih h.2⟩

/-- **C9**: every value the update path writes to the delivered flag is
exactly `S` or `N` (the first bound parameter of any executed UPDATE),
and consequently the flag invariant on the table is preserved by the
update endpoint on every input whatsoever — the read endpoint issues only
a SELECT and writes nothing. -/
theorem delivered_flag_invariant (db : List Row) (id : String) (st nm : JsVal)
    (hinv : db.all flagSN = true) :
    (∀ sql ps, updateStep id st nm = .execUpdate sql ps →
        ps.getD 0 "" = "S" ∨ ps.getD 0 "" = "N")
    ∧ (putDeliveryStatus db id st nm).1.all flagSN = true := by
  refine ⟨fun sql ps h => updateStep_flag_SN id st nm sql ps h, ?_⟩
  unfold putDeliveryStatus
  cases hstep : updateStep id st nm with
  | badRequest m => exact hinv
  | typeError => exact hinv
  | execUpdate sql ps =>
    have hflag := updateStep_flag_SN id st nm sql ps hstep
    simp only [dbExecUpdate]
    split <;> exact all_flagSN_map_updRow db _ _ _ hflag hinv

/-- Witness for C9: a lowercase `s` payload against an `N` row keeps the
invariant. -/
theorem delivered_flag_invariant_witness :
    (putDeliveryStatus [⟨"1", "2024-01-01", "1", "100", "N", "x"⟩] "1"
        (JsVal.str "s") (JsVal.str "Ana")).1.all flagSN = true :=
  (delivered_flag_invariant [⟨"1", "2024-01-01", "1", "100", "N", "x"⟩] "1"
    (JsVal.str "s") (JsVal.str "Ana") (by decide)).2

/-- **C8**: the health-check middleware runs before every route handler:
when the database is reachable it acquires and immediately releases a
connection — handing the handler the pool in its original state — and
passes control on; when it is not, it answers the 500 message and the
outcome does not depend on the handler, which is never invoked.  The
handler is universally quantified, so this covers every route, reads
included. -/
theorem health_check_gates_routes {α : Type} (p : Pool) (handler other : Pool → α) :
    (p.dbUp = true → healthCheckMw p handler = .handled p (handler p))
    ∧ (p.dbUp = false →
        healthCheckMw p handler = .serverError dbDownMsg
        ∧ healthCheckMw p handler = healthCheckMw p other) := by
  constructor
  · intro h
    unfold healthCheckMw getConnection releaseConn
    rw [if_pos h]
    simp
  · intro h
    unfold healthCheckMw getConnection
    rw [if_neg (by simp [h])]
    exact ⟨rfl, rfl⟩

/-- Witness for C8: a reachable pool passes control with the pool
restored; an unreachable one short-circuits with the 500 message. -/
theorem health_check_gates_routes_witness :
    healthCheckMw (Pool.mk true 5) (fun p => p.inUse) = .handled (Pool.mk true 5) 5
    ∧ healthCheckMw (Pool.mk false 0) (fun _ => (0 : Nat)) = .serverError dbDownMsg :=
  ⟨(health_check_gates_routes (Pool.mk true 5) (fun p => p.inUse) (fun p => p.inUse)).1 rfl,
   ((health_check_gates_routes (Pool.mk false 0) (fun _ => (0 : Nat)) (fun _ => 1)).2 rfl).1⟩
